import Mathlib

/-!
Shallow embedding of the `retroarch_mcp` test-runner package
(`tools/retroarch_mcp/retroarch_mcp/`): the process controller
(`retroarch.py`) and the step executor (`runner.py`), together with the
data model of `models.py`.

Modelling conventions:
* Python `Optional[str]` becomes `Option String`; Python truthiness of an
  optional string (`if config_path:`) is `pyTruthy` (non-None and non-empty).
* External effects (UDP sends, process spawn/terminate/kill, log-file
  open/close) are recorded as an explicit `Action` trace; the operating
  system's nondeterministic answers (does the process exit during a wait,
  what does the screenshot directory contain at each poll) are supplied by
  explicit environment structures.
* Wall-clock timestamps and float durations of `StepResult` are omitted:
  no verified property mentions them.
* Exceptions become `Except String` values carrying the Python exception
  text; an operation that raises returns the state as it was at the raise
  point, exactly as the Python object state would be.
-/

namespace RetroArchMCP

/-- Python truthiness of an optional string: `None` and `""` are falsy. -/
def pyTruthy : Option String → Bool
  | none => false
  | some s => !s.isEmpty

/-- Python `a or b` on optional strings (used for `step.core_path or
definition.core_path` style defaulting in the runner). -/
def pyOr (a b : Option String) : Option String :=
  if pyTruthy a then a else b

/-- Observable external effects of the controller, in program order. -/
inductive Action where
  | sendCmd (cmd : String)
  | openLog
  | closeLog
  | spawn (cmd : List String)
  | waitProc
  | terminateProc
  | killProc
  deriving DecidableEq

/-! ## RetroArchController.build_command (retroarch.py lines 65-98) -/

/-- Embeds `RetroArchController.build_command`: the sequence of appends the
Python method performs on the `command` list. -/
def build_command (retroarch_path : String) (core_path content_path config_path : Option String)
    (append_config_paths : List String) (menu : Option Bool) (verbose : Bool)
    (extra_args : List String) : List String :=
  let command := [retroarch_path]
  let command := if verbose then command ++ ["--verbose"] else command
  let command := if pyTruthy config_path then
    command ++ ["--config", config_path.getD ""] else command
  let command := command ++ (append_config_paths.map
    (fun append_path => ["--appendconfig", append_path])).flatten
  let command := if pyTruthy core_path then
    command ++ ["-L", core_path.getD ""] else command
  let command := if menu = some true ∨ (menu = none ∧ ¬ pyTruthy content_path) then
    command ++ ["--menu"] else command
  let command := command ++ extra_args
  if pyTruthy content_path then command ++ [content_path.getD ""] else command

/-- The argument vector as the specification describes it: independent
segments concatenated in the stated order (executable, verbose flag, config
pair, append-config pairs in caller order, core pair, menu flag, extra
arguments, content path last). -/
def build_command_spec (retroarch_path : String)
    (core_path content_path config_path : Option String)
    (append_config_paths : List String) (menu : Option Bool) (verbose : Bool)
    (extra_args : List String) : List String :=
  [retroarch_path]
    ++ (if verbose then ["--verbose"] else [])
    ++ (if pyTruthy config_path then ["--config", config_path.getD ""] else [])
    ++ (append_config_paths.map (fun p => ["--appendconfig", p])).flatten
    ++ (if pyTruthy core_path then ["-L", core_path.getD ""] else [])
    ++ (if menu = some true ∨ (menu = none ∧ ¬ pyTruthy content_path) then ["--menu"] else [])
    ++ extra_args
    ++ (if pyTruthy content_path then [content_path.getD ""] else [])

/-! ## Last `--appendconfig` occurrence in an argument vector -/

/-- The argument following the LAST occurrence of the token
`"--appendconfig"` in an argument vector (none if the token is absent, or
stands last with no argument after it). -/
def lastAppendconfigArg : List String → Option String
  | [] => none
  | a :: rest =>
    match lastAppendconfigArg rest with
    | some v => some v
    | none => if a = "--appendconfig" then rest.head? else none

/-! ## Controller state (retroarch.py: RetroArchController fields) -/

/-- The mutable fields of `RetroArchController`: `self._process` (modelled
as `some alive`, where `alive` means `poll() is None`), `self._log_handle`
(an identifier for the open file object, `none` when cleared), and
`self._state_slot`.  `next_handle` supplies fresh identifiers for newly
opened log files. -/
structure ControllerState where
  process : Option Bool
  log_handle : Option Nat
  state_slot : Int
  next_handle : Nat
  deriving DecidableEq

/-! ## RetroArchController.set_state_slot (retroarch.py lines 153-163) -/

/-- The `while self._state_slot < slot` loop: each iteration sends
`STATE_SLOT_PLUS` and then increments the cursor. -/
def slotPlusLoop (cursor slot : Int) : Int × List Action :=
  if _h : cursor < slot then
    let r := slotPlusLoop (cursor + 1) slot
    (r.1, Action.sendCmd "STATE_SLOT_PLUS" :: r.2)
  else (cursor, [])
termination_by (slot - cursor).toNat
decreasing_by omega

/-- The `while self._state_slot > slot` loop: each iteration sends
`STATE_SLOT_MINUS` and then decrements the cursor. -/
def slotMinusLoop (cursor slot : Int) : Int × List Action :=
  if _h : slot < cursor then
    let r := slotMinusLoop (cursor - 1) slot
    (r.1, Action.sendCmd "STATE_SLOT_MINUS" :: r.2)
  else (cursor, [])
termination_by (cursor - slot).toNat
decreasing_by omega

/-- Embeds `RetroArchController.set_state_slot`: reject negative targets
with `ValueError`, otherwise run the two relative-move loops. -/
def set_state_slot (st : ControllerState) (slot : Int) :
    Except String (ControllerState × List Action) :=
  if slot < 0 then .error "State slot must be non-negative."
  else
    let up := slotPlusLoop st.state_slot slot
    let down := slotMinusLoop up.1 slot
    .ok ({ st with state_slot := down.1 }, up.2 ++ down.2)

/-! ## RetroArchController.resolve_retroarch_path (retroarch.py lines 45-63) -/

/-- The process environment and filesystem facts consulted by path
resolution: `os.environ.get("RETROARCH_PATH")`, `shutil.which("retroarch")`,
and whether the fixed macOS bundle path exists. -/
structure ResolveEnv where
  env_retroarch_path : Option String
  which_retroarch : Option String
  mac_bundle_exists : Bool
  deriving DecidableEq

/-- Embeds `RetroArchController.resolve_retroarch_path`: explicit override,
then environment variable, then search path, then macOS bundle, else
`FileNotFoundError`. -/
def resolve_retroarch_path (env : ResolveEnv) (override : Option String) :
    Except String String :=
  if pyTruthy override then .ok (override.getD "")
  else if pyTruthy env.env_retroarch_path then .ok (env.env_retroarch_path.getD "")
  else if pyTruthy env.which_retroarch then .ok (env.which_retroarch.getD "")
  else if env.mac_bundle_exists then
    .ok "/Applications/RetroArch.app/Contents/MacOS/RetroArch"
  else .error "RetroArch executable not found. Provide retroarch_path or set RETROARCH_PATH."

/-! ## RetroArchController.launch (retroarch.py lines 100-145) -/

/-- The per-step launch parameters (after the runner's `or`-defaulting). -/
structure LaunchArgs where
  core_path : Option String
  content_path : Option String
  config_path : Option String
  retroarch_path : Option String
  menu : Option Bool
  verbose : Bool
  extra_args : List String
  deriving DecidableEq

/-- Embeds `RetroArchController.launch`: raise `AlreadyRunning` if a live
process handle is retained; otherwise resolve the executable (may raise
`FileNotFoundError`), build the command, close any stale log handle, open
the run's log file fresh, and spawn the child. -/
def launch (env : ResolveEnv) (args : LaunchArgs) (append_config_paths : List String)
    (st : ControllerState) : Except String Unit × ControllerState × List Action :=
  if st.process = some true then
    (.error "RetroArch is already running.", st, [])
  else
    match resolve_retroarch_path env args.retroarch_path with
    | .error e => (.error e, st, [])
    | .ok resolved_path =>
      let command := build_command resolved_path args.core_path args.content_path
        args.config_path append_config_paths args.menu args.verbose args.extra_args
      let closeTrace := if st.log_handle.isSome then [Action.closeLog] else []
      (.ok (),
        { st with
            process := some true
            log_handle := some st.next_handle
            next_handle := st.next_handle + 1 },
        closeTrace ++ [Action.openLog, Action.spawn command])

/-! ## RetroArchController.shutdown (retroarch.py lines 185-217) -/

/-- The operating system's answers during shutdown: whether the child
process exits within the grace period after the `QUIT` command, after
`terminate()`, and after `kill()`. -/
structure ShutdownEnv where
  exits_after_quit : Bool
  exits_after_terminate : Bool
  exits_after_kill : Bool
  deriving DecidableEq

/-- The trailing `if self._log_handle:` block of `shutdown`: close and
clear the log handle when one is retained. -/
def closeLogBlock (st : ControllerState) (trace : List Action) :
    Except String Unit × ControllerState × List Action :=
  if st.log_handle.isSome then
    (.ok (), { st with log_handle := none }, trace ++ [Action.closeLog])
  else
    (.ok (), st, trace)

/-- Embeds `RetroArchController.shutdown`: return immediately when no
process is retained or it has already exited; otherwise best-effort `QUIT`,
wait for exit (returning WITHOUT touching the log handle when the process
exits naturally), then escalate to `terminate()` and `kill()`; the final
unconditional wait after `kill()` re-raises `TimeoutExpired` if the process
still does not die.  The log-handle close block runs only after the
terminate/kill escalation. -/
def shutdown (env : ShutdownEnv) (st : ControllerState) :
    Except String Unit × ControllerState × List Action :=
  match st.process with
  | none => (.ok (), st, [])
  | some alive =>
    if !alive then (.ok (), st, [])
    else
      let t1 := [Action.sendCmd "QUIT", Action.waitProc]
      if env.exits_after_quit then
        (.ok (), { st with process := some false }, t1)
      else
        let t2 := t1 ++ [Action.terminateProc, Action.waitProc]
        if env.exits_after_terminate then
          closeLogBlock { st with process := some false } t2
        else
          let t3 := t2 ++ [Action.killProc, Action.waitProc]
          if env.exits_after_kill then
            closeLogBlock { st with process := some false } t3
          else
            (.error "TimeoutExpired", st, t3)

/-! ## RetroArchController.capture_screenshot (retroarch.py lines 165-183) -/

/-- One directory entry as seen by `screenshots_dir.glob("*.*")`:
its name, its current modification time, and whether it is a regular file. -/
structure FileEntry where
  name : String
  mtime : Int
  is_file : Bool
  deriving DecidableEq

/-- The filesystem and clock facts consulted by one `capture_screenshot`
call: the capture-start instant (`time.time()`), the glob listing taken for
the `before` snapshot, and the glob listing observed at each poll iteration
that happens before the deadline (so the list length encodes the timeout). -/
structure CaptureEnv where
  start_time : Int
  initial : List FileEntry
  scans : List (List FileEntry)

/-- The `before` dict: file name mapped to modification time at snapshot
instant. -/
def snapshotDir (files : List FileEntry) : List (String × Int) :=
  files.map (fun f => (f.name, f.mtime))

/-- One pass of the inner `for path in screenshots_dir.glob("*.*")` loop:
the first regular file that either was absent from the snapshot or whose
modification time exceeds the capture-start instant. -/
def scanFind (before : List (String × Int)) (start_time : Int)
    (files : List FileEntry) : Option String :=
  files.findSome? (fun f =>
    if !f.is_file then none
    else if (before.lookup f.name).isNone ∨ start_time < f.mtime then some f.name
    else none)

/-- The `while time.time() < deadline` polling loop over the successive
directory listings. -/
def pollScans (before : List (String × Int)) (start_time : Int) :
    List (List FileEntry) → Except String String
  | [] => .error "Timed out waiting for RetroArch screenshot output."
  | files :: rest =>
    match scanFind before start_time files with
    | some p => .ok p
    | none => pollScans before start_time rest

/-- Embeds `RetroArchController.capture_screenshot`: snapshot the
directory, send `SCREENSHOT`, then poll until a qualifying file is found or
the deadline passes (`TimeoutError`). -/
def capture_screenshot (cenv : CaptureEnv) : Except String String × List Action :=
  let before := snapshotDir cenv.initial
  (pollScans before cenv.start_time cenv.scans, [Action.sendCmd "SCREENSHOT"])

/-! ## Data model (models.py) -/

/-- Step status literals of `StepResult.status`
(`Literal["passed", "failed", "skipped"]`). -/
inductive Status where
  | passed
  | failed
  | skipped
  deriving DecidableEq

/-- Capture-mode literals of `ScreenshotAssertStep`. -/
inductive CaptureMode where
  | retroarch
  | system
  deriving DecidableEq

/-- The tagged step union of models.py.  Float-valued sleep durations are
carried as rationals; they are only slept on, never computed with.
`LaunchStep.append_config_paths` is omitted: the runner never reads it
(it always passes the run-level list). -/
inductive Step where
  | launch (core_path content_path config_path retroarch_path : Option String)
      (menu : Option Bool) (verbose : Bool) (extra_args : List String)
      (startup_wait_seconds : Rat)
  | wait (seconds : Rat)
  | command (command : String)
  | input (command : String) (rep : Int) (delay_seconds : Rat)
  | screenshot_assert (prompt : String) (model : Option String)
      (timeout_seconds : Rat) (capture_mode : CaptureMode)
  | save_state (slot : Option Int)
  | load_state (slot : Option Int)
  | exit
  deriving DecidableEq

/-- The `type` discriminator string of each step variant. -/
def Step.type : Step → String
  | .launch .. => "launch"
  | .wait _ => "wait"
  | .command _ => "command"
  | .input .. => "input"
  | .screenshot_assert .. => "screenshot_assert"
  | .save_state _ => "save_state"
  | .load_state _ => "load_state"
  | .exit => "exit"

/-- The fields of `TestDefinition` the execution engine reads.  Artifact
directory overrides and the UDP host/port only parameterize I/O locations
and are not represented. -/
structure TestDefinition where
  name : String
  core_path : Option String
  content_path : Option String
  config_path : Option String
  append_config_paths : List String
  retroarch_path : Option String
  continue_on_failure : Bool
  steps : List Step

/-- The fields of `OpenRouterResult` / `OpenRouterEvaluation`; the parsed
JSON payload is kept as an opaque optional blob. -/
structure ORResultData where
  passed : Bool
  reason : String
  raw_content : String
  parsed_json : Option String
  deriving DecidableEq

/-- Model of `StepResult` minus the wall-clock fields (`started_at`, `finished_at`,
`duration_seconds`), which no verified property mentions. -/
structure StepResult where
  index : Nat
  type : String
  status : Status
  message : Option String
  error : Option String
  screenshot_path : Option String
  openrouter : Option ORResultData
  deriving DecidableEq

/-- Model of `TestRunResult` minus clocks and artifact paths. -/
structure TestRunResult where
  name : String
  passed : Bool
  steps : List StepResult
  deriving DecidableEq

/-! ## The runner's world (runner.py) -/

/-- Everything outside the runner that a run interacts with: the controller
object's state, the resolution environment, the shutdown environment, one
`CaptureEnv` per emulator-native capture call, one outcome per system
(OS-level) capture call, the optional OpenRouter client with one outcome
per validation call, and the accumulated effect trace. -/
structure World where
  ctrl : ControllerState
  resolveEnv : ResolveEnv
  shutdownEnv : ShutdownEnv
  captureEnvs : Nat → CaptureEnv
  captureCount : Nat
  sysCaptures : Nat → Except String String
  sysCaptureCount : Nat
  validator : Option (Nat → Except String ORResultData)
  validatorCount : Nat
  trace : List Action

/-- Embeds `controller.send_command`: hand one datagram to the network stack. -/
def wSend (cmd : String) (w : World) : World :=
  { w with trace := w.trace ++ [Action.sendCmd cmd] }

/-- Embeds `for _ in range(step.repeat): controller.send_command(...)` of the
input step (Python `range` of a non-positive int is empty). -/
def wSendN (cmd : String) (n : Nat) (w : World) : World :=
  match n with
  | 0 => w
  | n + 1 => wSendN cmd n (wSend cmd w)

/-- Embeds `controller.launch` lifted to the world. -/
def wLaunch (args : LaunchArgs) (append_config_paths : List String) (w : World) :
    Except String Unit × World :=
  let r := launch w.resolveEnv args append_config_paths w.ctrl
  (r.1, { w with ctrl := r.2.1, trace := w.trace ++ r.2.2 })

/-- Embeds `controller.set_state_slot` lifted to the world. -/
def wSetStateSlot (slot : Int) (w : World) : Except String Unit × World :=
  match set_state_slot w.ctrl slot with
  | .error e => (.error e, w)
  | .ok (st, tr) => (.ok (), { w with ctrl := st, trace := w.trace ++ tr })

/-- Embeds `controller.capture_screenshot` lifted to the world: consumes the next
capture environment. -/
def wCapture (w : World) : Except String String × World :=
  let r := capture_screenshot (w.captureEnvs w.captureCount)
  (r.1, { w with captureCount := w.captureCount + 1, trace := w.trace ++ r.2 })

/-- Embeds `_capture_system_screenshot` lifted to the world: its interaction with
the OS (platform check, window lookup, `screencapture` retries) is
abstracted as the next oracle outcome. -/
def wSysCapture (w : World) : Except String String × World :=
  (w.sysCaptures w.sysCaptureCount, { w with sysCaptureCount := w.sysCaptureCount + 1 })

/-- Embeds `openrouter.validate_image` lifted to the world: consumes the next
validation outcome (an exception or an `OpenRouterResult`). -/
def wValidate (v : Nat → Except String ORResultData) (w : World) :
    Except String ORResultData × World :=
  (v w.validatorCount, { w with validatorCount := w.validatorCount + 1 })

/-- Embeds `controller.shutdown` lifted to the world. -/
def wShutdown (w : World) : Except String Unit × World :=
  let r := shutdown w.shutdownEnv w.ctrl
  (r.1, { w with ctrl := r.2.1, trace := w.trace ++ r.2.2 })

/-! ## TestRunner._run_step (runner.py lines 286-399) -/

/-- The local variables of `_run_step` at the end of its try/except block,
plus the world after the step's effects. -/
structure DispatchOut where
  status : Status
  message : Option String
  error : Option String
  screenshot_path : Option String
  openrouter : Option ORResultData
  world : World

/-- The `except Exception` handler: status `failed`, `error = str(exc)`;
`message` and `screenshot_path` keep the values they had at the raise
point (`None` for every branch that can raise before assigning them,
except the screenshot branch which handles its own assignments inline). -/
def exceptOut (w : World) (e : String) : DispatchOut :=
  { status := .failed, message := none, error := some e,
    screenshot_path := none, openrouter := none, world := w }

/-- A successful non-screenshot branch: status `passed` with a message. -/
def passedOut (w : World) (msg : String) : DispatchOut :=
  { status := .passed, message := some msg, error := none,
    screenshot_path := none, openrouter := none, world := w }

/-- The `save_state` / `load_state` bodies: optional cursor move, then the
wire command. -/
def stateStep (slot : Option Int) (wireCmd msg : String) (w : World) : DispatchOut :=
  match slot with
  | none => passedOut (wSend wireCmd w) msg
  | some n =>
    match wSetStateSlot n w with
    | (.error e, w') => exceptOut w' e
    | (.ok _, w') => passedOut (wSend wireCmd w') msg

/-- The dispatch chain of `_run_step` (the `isinstance` ladder inside the
try block), producing the step-local result variables. -/
def dispatchStep (step : Step) (defn : TestDefinition)
    (append_configs : List String) (w : World) : DispatchOut :=
  match step with
  | .launch core content config retro menu verbose extra _startup =>
    let args : LaunchArgs :=
      { core_path := pyOr core defn.core_path
        content_path := pyOr content defn.content_path
        config_path := pyOr config defn.config_path
        retroarch_path := pyOr retro defn.retroarch_path
        menu := menu
        verbose := verbose
        extra_args := extra }
    match wLaunch args append_configs w with
    | (.error e, w') => exceptOut w' e
    | (.ok _, w') => passedOut w' "RetroArch launched"
  | .wait seconds =>
    passedOut w ("Waited " ++ toString seconds ++ " seconds")
  | .command cmd =>
    passedOut (wSend cmd w) ("Sent command " ++ cmd)
  | .input cmd rep _delay =>
    passedOut (wSendN cmd rep.toNat w) ("Sent " ++ cmd ++ " x" ++ toString rep)
  | .save_state slot => stateStep slot "SAVE_STATE" "Save state command issued" w
  | .load_state slot => stateStep slot "LOAD_STATE" "Load state command issued" w
  | .screenshot_assert _prompt _model _timeout mode =>
    let c := if mode = CaptureMode.system then wSysCapture w else wCapture w
    match c with
    | (.error e, w1) => exceptOut w1 e
    | (.ok p, w1) =>
      match w1.validator with
      | none =>
        { status := .failed, message := none,
          error := some "OPENROUTER_API_KEY not configured",
          screenshot_path := some p, openrouter := none, world := w1 }
      | some v =>
        match wValidate v w1 with
        | (.error e, w2) =>
          { status := .failed, message := none, error := some e,
            screenshot_path := some p, openrouter := none, world := w2 }
        | (.ok res, w2) =>
          if res.passed then
            { status := .passed, message := none, error := none,
              screenshot_path := some p, openrouter := some res, world := w2 }
          else
            { status := .failed, message := none, error := some res.reason,
              screenshot_path := some p, openrouter := some res, world := w2 }
  | .exit =>
    match wShutdown w with
    | (.error e, w') => exceptOut w' e
    | (.ok _, w') => passedOut w' "RetroArch shutdown requested"

/-- Embeds `TestRunner._run_step`: run the dispatch chain and package the
local variables into a `StepResult`. -/
def runStep (index : Nat) (step : Step) (defn : TestDefinition)
    (append_configs : List String) (w : World) : StepResult × World :=
  let d := dispatchStep step defn append_configs w
  ({ index := index, type := step.type, status := d.status,
     message := d.message, error := d.error,
     screenshot_path := d.screenshot_path, openrouter := d.openrouter },
   d.world)

/-! ## TestRunner.run (runner.py lines 223-284) -/

/-- The `for index, step in enumerate(definition.steps)` loop: append each
result; on a failed result clear `passed` and, unless
`continue_on_failure`, break. -/
def runLoop (defn : TestDefinition) (append_configs : List String) :
    Nat → List Step → World → List StepResult × Bool × World
  | _, [], w => ([], true, w)
  | i, step :: rest, w =>
    let r := runStep i step defn append_configs w
    if r.1.status = .failed then
      if defn.continue_on_failure then
        let rec' := runLoop defn append_configs (i + 1) rest r.2
        (r.1 :: rec'.1, false, rec'.2.2)
      else
        ([r.1], false, r.2)
    else
      let rec' := runLoop defn append_configs (i + 1) rest r.2
      (r.1 :: rec'.1, rec'.2.1, rec'.2.2)

/-- Embeds `TestRunner.run`: build the run-level append-config list (the
caller-supplied paths followed by the run's own generated file
`append_path`), execute the step loop, and run the `finally:
controller.shutdown()`; an exception escaping that final shutdown aborts
the run before any result is assembled. -/
def run (defn : TestDefinition) (append_path : String) (w : World) :
    Except String (TestRunResult × World) :=
  let append_configs := defn.append_config_paths ++ [append_path]
  let r := runLoop defn append_configs 0 defn.steps w
  match wShutdown r.2.2 with
  | (.error e, _) => .error e
  | (.ok _, w2) =>
    .ok ({ name := defn.name, passed := r.2.1, steps := r.1 }, w2)

/-! ## Executor invariants (runner.py _run_step / run) -/

/-- The run result alone (discarding the final world), for stating
properties of `TestRunner.run`'s return value. -/
def runResult (defn : TestDefinition) (append_path : String) (w : World) :
    Option TestRunResult :=
  match run defn append_path w with
  | .ok (res, _) => some res
  | .error _ => none

/-! ## Concrete fixtures for witnesses -/

/-- A capture environment where a fresh regular file `new.png` appears at
the second poll. -/
def cenvNew : CaptureEnv :=
  ⟨100, [⟨"old.png", 50, true⟩],
   [[⟨"old.png", 50, true⟩], [⟨"old.png", 50, true⟩, ⟨"new.png", 150, true⟩]]⟩

/-- A concrete world: no process yet, resolution via the environment
variable, cooperative shutdown, successful captures, no validator. -/
def wBase : World :=
  { ctrl := ⟨none, none, 0, 0⟩
    resolveEnv := ⟨some "/usr/bin/retroarch", none, false⟩
    shutdownEnv := ⟨true, false, false⟩
    captureEnvs := fun _ => cenvNew
    captureCount := 0
    sysCaptures := fun _ => .error "system capture unavailable"
    sysCaptureCount := 0
    validator := none
    validatorCount := 0
    trace := [] }

/-- Three steps whose middle one fails (negative save slot), with
`continue_on_failure = false`. -/
def defnStop : TestDefinition :=
  ⟨"demo", none, none, none, [], none, false,
   [Step.command "RESET", Step.save_state (some (-1)), Step.command "MENU"]⟩

/-- The same steps with `continue_on_failure = true`. -/
def defnCont : TestDefinition :=
  ⟨"demo", none, none, none, [], none, true,
   [Step.command "RESET", Step.save_state (some (-1)), Step.command "MENU"]⟩

/-- A zero-step definition. -/
def defnEmpty : TestDefinition := ⟨"empty", none, none, none, [], none, false, []⟩

/-- The run result `defnStop` produces in `wBase`: the failing step is the
last one recorded, the third step never runs. -/
def resStop : TestRunResult :=
  ⟨"demo", false,
   [⟨0, "command", .passed, some "Sent command RESET", none, none, none⟩,
    ⟨1, "save_state", .failed, none, some "State slot must be non-negative.",
      none, none⟩]⟩

/-- The run result `defnCont` produces in `wBase`: all three steps run. -/
def resCont : TestRunResult :=
  ⟨"demo", false,
   [⟨0, "command", .passed, some "Sent command RESET", none, none, none⟩,
    ⟨1, "save_state", .failed, none, some "State slot must be non-negative.",
      none, none⟩,
    ⟨2, "command", .passed, some "Sent command MENU", none, none, none⟩]⟩

/-- The run result of the zero-step definition. -/
def resEmpty : TestRunResult := ⟨"empty", true, []⟩

/-! ## Theorems -/

/-- The imperative append chain equals the segment concatenation. -/
theorem build_command_segments (retroarch_path : String)
    (core_path content_path config_path : Option String)
    (append_config_paths : List String) (menu : Option Bool) (verbose : Bool)
    (extra_args : List String) :
    build_command retroarch_path core_path content_path config_path
      append_config_paths menu verbose extra_args
    = build_command_spec retroarch_path core_path content_path config_path
      append_config_paths menu verbose extra_args := by
  unfold build_command build_command_spec
  split_ifs <;> simp_all [List.append_assoc]

theorem lastAppendconfigArg_cons (a : String) (rest : List String) :
    lastAppendconfigArg (a :: rest) =
      match lastAppendconfigArg rest with
      | some v => some v
      | none => if a = "--appendconfig" then rest.head? else none := rfl

theorem lastAppendconfigArg_of_not_mem {xs : List String}
    (h : "--appendconfig" ∉ xs) : lastAppendconfigArg xs = none := by
  induction xs with
  | nil => rfl
  | cons a rest ih =>
    simp only [List.mem_cons, not_or] at h
    rw [lastAppendconfigArg_cons, ih h.2]
    simp [Ne.symm h.1]

theorem lastAppendconfigArg_append {xs post : List String} (g : String)
    (hpost : "--appendconfig" ∉ post) (hg : g ≠ "--appendconfig") :
    lastAppendconfigArg (xs ++ "--appendconfig" :: g :: post) = some g := by
  induction xs with
  | nil =>
    have hrest : lastAppendconfigArg (g :: post) = none := by
      apply lastAppendconfigArg_of_not_mem
      simp only [List.mem_cons, not_or]
      exact ⟨fun h => hg h.symm, hpost⟩
    rw [List.nil_append, lastAppendconfigArg_cons, hrest]
    simp
  | cons a rest ih =>
    rw [List.cons_append, lastAppendconfigArg_cons, ih]

theorem slotPlusLoop_spec :
    ∀ (n : Nat) (cursor slot : Int), slot - cursor = n →
      slotPlusLoop cursor slot =
        (slot, List.replicate n (Action.sendCmd "STATE_SLOT_PLUS")) := by
  intro n
  induction n with
  | zero =>
    intro cursor slot h
    rw [slotPlusLoop]
    have : ¬ cursor < slot := by omega
    simp [this]
    omega
  | succ m ih =>
    intro cursor slot h
    rw [slotPlusLoop]
    have hlt : cursor < slot := by omega
    simp [hlt, ih (cursor + 1) slot (by omega), List.replicate_succ]

theorem slotPlusLoop_ge {cursor slot : Int} (h : slot ≤ cursor) :
    slotPlusLoop cursor slot = (cursor, []) := by
  rw [slotPlusLoop]
  have : ¬ cursor < slot := by omega
  simp [this]

theorem slotMinusLoop_spec :
    ∀ (n : Nat) (cursor slot : Int), cursor - slot = n →
      slotMinusLoop cursor slot =
        (slot, List.replicate n (Action.sendCmd "STATE_SLOT_MINUS")) := by
  intro n
  induction n with
  | zero =>
    intro cursor slot h
    rw [slotMinusLoop]
    have : ¬ slot < cursor := by omega
    simp [this]
    omega
  | succ m ih =>
    intro cursor slot h
    rw [slotMinusLoop]
    have hlt : slot < cursor := by omega
    simp [hlt, ih (cursor - 1) slot (by omega), List.replicate_succ]

theorem slotMinusLoop_le {cursor slot : Int} (h : cursor ≤ slot) :
    slotMinusLoop cursor slot = (cursor, []) := by
  rw [slotMinusLoop]
  have : ¬ slot < cursor := by omega
  simp [this]

/-! ## Claims C3-C6 -/

/-- C3: for every input to command-line construction, the built argument
vector is exactly: the executable, then the verbose flag if verbose is set,
then `--config path` if a config path is given, then one
`--appendconfig path` pair per append path preserving caller order, then
`-L core-path` if a core path is given, then `--menu` whenever it is
explicitly requested or no content path is given, then the extra free-form
arguments, then the content path as the final positional argument when
present. -/
theorem claim_C3_command_line_order (retroarch_path : String)
    (core_path content_path config_path : Option String)
    (append_config_paths : List String) (menu : Option Bool) (verbose : Bool)
    (extra_args : List String) :
    build_command retroarch_path core_path content_path config_path
      append_config_paths menu verbose extra_args
    = build_command_spec retroarch_path core_path content_path config_path
      append_config_paths menu verbose extra_args :=
  build_command_segments retroarch_path core_path content_path config_path
    append_config_paths menu verbose extra_args

/-- C4 counterexample: when the free-form extra arguments themselves
contain the literal token `--appendconfig`, the run's generated
append-config path (`"gen.cfg"`, appended last to the append-path list as
the runner does) is NOT the last `--appendconfig` occurrence of the built
argument vector. -/
theorem claim_C4_counterexample :
    lastAppendconfigArg
      (build_command "retroarch" none none none (["user.cfg"] ++ ["gen.cfg"]) none false
        ["--appendconfig", "sneaky.cfg"]) = some "sneaky.cfg" ∧
    ¬ lastAppendconfigArg
      (build_command "retroarch" none none none (["user.cfg"] ++ ["gen.cfg"]) none false
        ["--appendconfig", "sneaky.cfg"]) = some "gen.cfg" := by
  constructor
  · rfl
  · decide

/-- C4 (amended): command-line construction is deterministic (identical
inputs yield an identical argument vector), and — provided the free-form
extra arguments do not contain the literal token `--appendconfig` and
neither the core path, the content path, nor the generated path collides
with that token — the run's generated append-config path (appended last to
the append list, as `TestRunner.run` does) is the last `--appendconfig`
occurrence in the argument vector, regardless of how many caller-supplied
append paths precede it. -/
theorem claim_C4_amended (retroarch_path : String)
    (core_path content_path config_path : Option String)
    (user_appends : List String) (gen : String) (menu : Option Bool)
    (verbose : Bool) (extra_args : List String)
    (hextra : "--appendconfig" ∉ extra_args)
    (hcore : core_path ≠ some "--appendconfig")
    (hcontent : content_path ≠ some "--appendconfig")
    (hgen : gen ≠ "--appendconfig") :
    (build_command retroarch_path core_path content_path config_path
        (user_appends ++ [gen]) menu verbose extra_args
      = build_command retroarch_path core_path content_path config_path
        (user_appends ++ [gen]) menu verbose extra_args) ∧
    lastAppendconfigArg
      (build_command retroarch_path core_path content_path config_path
        (user_appends ++ [gen]) menu verbose extra_args) = some gen := by
  refine ⟨rfl, ?_⟩
  rw [build_command_segments]
  unfold build_command_spec
  have hpost : "--appendconfig" ∉
      (if pyTruthy core_path then ["-L", core_path.getD ""] else [])
      ++ ((if menu = some true ∨ (menu = none ∧ ¬ pyTruthy content_path) then ["--menu"] else [])
      ++ (extra_args ++ (if pyTruthy content_path then [content_path.getD ""] else []))) := by
    have hcv : core_path.getD "" ≠ "--appendconfig" := by
      cases core_path with
      | none => decide
      | some s => intro h; exact hcore (by rw [Option.getD] at h; rw [h])
    have hcn : content_path.getD "" ≠ "--appendconfig" := by
      cases content_path with
      | none => decide
      | some s => intro h; exact hcontent (by rw [Option.getD] at h; rw [h])
    intro hmem
    simp only [List.mem_append] at hmem
    rcases hmem with h | h | h | h
    · revert h
      split_ifs
      · intro h
        rcases List.mem_cons.mp h with h | h
        · exact absurd h (by decide)
        · exact hcv (List.mem_singleton.mp h).symm
      · intro h
        exact absurd h (List.not_mem_nil _)
    · revert h
      split_ifs
      · intro h
        exact absurd (List.mem_singleton.mp h) (by decide)
      · intro h
        exact absurd h (List.not_mem_nil _)
    · exact hextra h
    · revert h
      split_ifs
      · intro h
        exact hcn (List.mem_singleton.mp h).symm
      · intro h
        exact absurd h (List.not_mem_nil _)
  have hsplit :
      [retroarch_path]
        ++ (if verbose then ["--verbose"] else [])
        ++ (if pyTruthy config_path then ["--config", config_path.getD ""] else [])
        ++ ((user_appends ++ [gen]).map (fun p => ["--appendconfig", p])).flatten
        ++ (if pyTruthy core_path then ["-L", core_path.getD ""] else [])
        ++ (if menu = some true ∨ (menu = none ∧ ¬ pyTruthy content_path) then ["--menu"] else [])
        ++ extra_args
        ++ (if pyTruthy content_path then [content_path.getD ""] else [])
      = ([retroarch_path]
        ++ (if verbose then ["--verbose"] else [])
        ++ (if pyTruthy config_path then ["--config", config_path.getD ""] else [])
        ++ (user_appends.map (fun p => ["--appendconfig", p])).flatten)
        ++ "--appendconfig" :: gen ::
          ((if pyTruthy core_path then ["-L", core_path.getD ""] else [])
          ++ ((if menu = some true ∨ (menu = none ∧ ¬ pyTruthy content_path) then ["--menu"] else [])
          ++ (extra_args ++ (if pyTruthy content_path then [content_path.getD ""] else [])))) := by
    simp [List.append_assoc]
  rw [hsplit]
  exact lastAppendconfigArg_append gen hpost hgen

/-- C4 witness: a concrete instantiation of the amended claim. -/
theorem claim_C4_witness :
    lastAppendconfigArg
      (build_command "retroarch" none none none (["user.cfg"] ++ ["gen.cfg"]) none false [])
      = some "gen.cfg" :=
  (claim_C4_amended "retroarch" none none none ["user.cfg"] "gen.cfg" none false []
    (by decide) (by decide) (by decide) (by decide)).2

/-- C5: for every non-negative target slot `N` and current cursor `C`,
`set_state_slot` issues exactly `|C - N|` commands — all increments if
`N > C`, all decrements if `N < C`, none if `N = C` — and leaves the cursor
equal to `N`; for every negative `N` it fails with `InvalidSlot`
(`ValueError`) and issues no commands. -/
theorem claim_C5_set_state_slot (st : ControllerState) (slot : Int) :
    (slot < 0 → set_state_slot st slot = .error "State slot must be non-negative.") ∧
    (0 ≤ slot → st.state_slot ≤ slot →
      set_state_slot st slot = .ok ({ st with state_slot := slot },
        List.replicate (slot - st.state_slot).toNat (Action.sendCmd "STATE_SLOT_PLUS"))) ∧
    (0 ≤ slot → slot ≤ st.state_slot →
      set_state_slot st slot = .ok ({ st with state_slot := slot },
        List.replicate (st.state_slot - slot).toNat (Action.sendCmd "STATE_SLOT_MINUS"))) := by
  refine ⟨?_, ?_, ?_⟩
  · intro h
    simp [set_state_slot, h]
  · intro h0 hle
    have h1 := slotPlusLoop_spec (slot - st.state_slot).toNat st.state_slot slot (by omega)
    simp [set_state_slot, not_lt.mpr h0, h1, slotMinusLoop_le (le_refl slot)]
  · intro h0 hge
    have h1 := slotMinusLoop_spec (st.state_slot - slot).toNat st.state_slot slot (by omega)
    simp [set_state_slot, not_lt.mpr h0, slotPlusLoop_ge hge, h1]

/-- C5 witness: moving from cursor 3 to target 0 issues exactly 3 decrement
commands and leaves the cursor at 0; moving from 0 to 0 issues zero
commands; a negative target fails with no commands issued. -/
theorem claim_C5_witness :
    set_state_slot ⟨none, none, 3, 0⟩ 0
      = .ok (⟨none, none, 0, 0⟩, List.replicate 3 (Action.sendCmd "STATE_SLOT_MINUS")) ∧
    set_state_slot ⟨none, none, 0, 0⟩ 0 = .ok (⟨none, none, 0, 0⟩, []) ∧
    set_state_slot ⟨none, none, 0, 0⟩ (-1) = .error "State slot must be non-negative." :=
  ⟨(claim_C5_set_state_slot ⟨none, none, 3, 0⟩ 0).2.2 (by norm_num) (by norm_num),
   (claim_C5_set_state_slot ⟨none, none, 0, 0⟩ 0).2.1 (by norm_num) (by norm_num),
   (claim_C5_set_state_slot ⟨none, none, 0, 0⟩ (-1)).1 (by norm_num)⟩

/-- C6: if `launch` is called while a previously launched child-process
handle exists and that process is still alive, the call fails with
`AlreadyRunning` and the controller's state is unchanged — the process
handle, log handle and state-slot cursor are untouched and no action (in
particular no spawn) is performed. -/
theorem claim_C6_launch_already_running (env : ResolveEnv) (args : LaunchArgs)
    (append_config_paths : List String) (st : ControllerState)
    (h : st.process = some true) :
    launch env args append_config_paths st
      = (.error "RetroArch is already running.", st, []) := by
  simp [launch, h]

/-- C6 witness: a concrete controller state with a live process. -/
theorem claim_C6_witness :
    launch ⟨none, none, false⟩ ⟨none, none, none, none, none, false, []⟩ []
        ⟨some true, some 7, 2, 9⟩
      = (.error "RetroArch is already running.", ⟨some true, some 7, 2, 9⟩, []) :=
  claim_C6_launch_already_running ⟨none, none, false⟩
    ⟨none, none, none, none, none, false, []⟩ [] ⟨some true, some 7, 2, 9⟩ rfl

/-! ## Claim C7 -/

/-- C7 counterexample: on the natural-exit path (the process exits within
the grace period after `QUIT`), `shutdown` returns from inside the first
`try` block and the retained log handle is NOT closed — the process is
confirmed gone (`process = some false`) yet the log handle survives and no
`closeLog` action is emitted.  This refutes "on every execution path where
the child process is confirmed gone, the retained log-file handle is
closed". -/
theorem claim_C7_counterexample :
    shutdown ⟨true, false, false⟩ ⟨some true, some 0, 0, 1⟩
      = (.ok (), ⟨some false, some 0, 0, 1⟩, [Action.sendCmd "QUIT", Action.waitProc]) ∧
    (shutdown ⟨true, false, false⟩ ⟨some true, some 0, 0, 1⟩).2.1.log_handle ≠ none ∧
    Action.closeLog ∉ (shutdown ⟨true, false, false⟩ ⟨some true, some 0, 0, 1⟩).2.2 := by
  refine ⟨rfl, by decide, by decide⟩

theorem shutdown_ok_process_dead (env : ShutdownEnv) (st : ControllerState)
    (h : (shutdown env st).1 = .ok ()) :
    (shutdown env st).2.1.process = none ∨ (shutdown env st).2.1.process = some false := by
  obtain ⟨proc, lh, slot, nh⟩ := st
  unfold shutdown closeLogBlock
  unfold shutdown closeLogBlock at h
  rcases proc with _ | (_ | _) <;> split_ifs <;> simp_all

theorem shutdown_of_dead (env : ShutdownEnv) (st : ControllerState)
    (h : st.process = none ∨ st.process = some false) :
    shutdown env st = (.ok (), st, []) := by
  rcases h with h | h <;> simp [shutdown, h]

/-- C7 (amended): the retained log-file handle is closed exactly on the
escalation paths (process exits after `terminate()` or after `kill()`); on
the natural-exit path after `QUIT`, and when the process is absent or
already exited, the handle is left untouched.  Shutdown is idempotent:
with no process ever launched it is a no-op with no error and no actions,
and after any successful shutdown a second call is a no-op with no error
and no actions (hence no duplicate resource-release attempts). -/
theorem claim_C7_amended (env env' : ShutdownEnv) (st : ControllerState) :
    (st.process = none → shutdown env st = (.ok (), st, [])) ∧
    (st.process = some false → shutdown env st = (.ok (), st, [])) ∧
    (st.process = some true → env.exits_after_quit = true →
      shutdown env st = (.ok (), { st with process := some false },
        [Action.sendCmd "QUIT", Action.waitProc]) ∧
      (shutdown env st).2.1.log_handle = st.log_handle) ∧
    (st.process = some true → env.exits_after_quit = false →
      env.exits_after_terminate = true →
      (shutdown env st).1 = .ok () ∧ (shutdown env st).2.1.log_handle = none ∧
      (st.log_handle ≠ none → Action.closeLog ∈ (shutdown env st).2.2)) ∧
    (st.process = some true → env.exits_after_quit = false →
      env.exits_after_terminate = false → env.exits_after_kill = true →
      (shutdown env st).1 = .ok () ∧ (shutdown env st).2.1.log_handle = none ∧
      (st.log_handle ≠ none → Action.closeLog ∈ (shutdown env st).2.2)) ∧
    ((shutdown env st).1 = .ok () →
      shutdown env' (shutdown env st).2.1 = (.ok (), (shutdown env st).2.1, [])) := by
  refine ⟨?_, ?_, ?_, ?_, ?_, ?_⟩
  · intro h
    simp [shutdown, h]
  · intro h
    simp [shutdown, h]
  · intro h hq
    constructor <;> simp [shutdown, h, hq]
  · intro h hq ht
    simp only [shutdown, h, Bool.not_true, if_false, hq, ht, if_true, closeLogBlock]
    rcases hl : st.log_handle with _ | v <;> simp [hl]
  · intro h hq ht hk
    simp only [shutdown, h, Bool.not_true, if_false, hq, ht, hk, if_true, closeLogBlock]
    rcases hl : st.log_handle with _ | v <;> simp [hl]
  · intro h
    exact shutdown_of_dead env' _ (shutdown_ok_process_dead env st h)

/-- C7 witness: concrete runs of both escalation paths, the idempotent
double call, and the never-launched no-op. -/
theorem claim_C7_witness :
    shutdown ⟨false, false, false⟩ ⟨none, none, 0, 0⟩ = (.ok (), ⟨none, none, 0, 0⟩, []) ∧
    ((shutdown ⟨false, true, false⟩ ⟨some true, some 3, 0, 4⟩).1 = .ok ()
      ∧ (shutdown ⟨false, true, false⟩ ⟨some true, some 3, 0, 4⟩).2.1.log_handle = none
      ∧ (Action.closeLog ∈ (shutdown ⟨false, true, false⟩ ⟨some true, some 3, 0, 4⟩).2.2)) ∧
    shutdown ⟨true, false, false⟩ ⟨some false, some 3, 0, 4⟩
      = (.ok (), ⟨some false, some 3, 0, 4⟩, []) := by
  refine ⟨(claim_C7_amended ⟨false, false, false⟩ ⟨false, false, false⟩ ⟨none, none, 0, 0⟩).1 rfl,
    ?_, ?_⟩
  · have h := (claim_C7_amended ⟨false, true, false⟩ ⟨false, true, false⟩
      ⟨some true, some 3, 0, 4⟩).2.2.2.1 rfl rfl rfl
    exact ⟨h.1, h.2.1, h.2.2 (by decide)⟩
  · exact (claim_C7_amended ⟨true, false, false⟩ ⟨true, false, false⟩
      ⟨some false, some 3, 0, 4⟩).2.1 rfl

/-! ## Claim C8 -/

theorem pollScans_ok {before : List (String × Int)} {start_time : Int}
    {scans : List (List FileEntry)} {p : String}
    (h : pollScans before start_time scans = .ok p) :
    ∃ files ∈ scans, scanFind before start_time files = some p := by
  induction scans with
  | nil => exact absurd h (by simp [pollScans])
  | cons files rest ih =>
    rw [pollScans] at h
    cases hf : scanFind before start_time files with
    | some q =>
      rw [hf] at h
      injection h with h
      exact ⟨files, List.mem_cons_self _ _, by rw [hf, h]⟩
    | none =>
      rw [hf] at h
      obtain ⟨fs, hmem, hfs⟩ := ih h
      exact ⟨fs, List.mem_cons_of_mem _ hmem, hfs⟩

theorem pollScans_timeout {before : List (String × Int)} {start_time : Int}
    {scans : List (List FileEntry)} :
    pollScans before start_time scans
        = .error "Timed out waiting for RetroArch screenshot output."
      ↔ ∀ files ∈ scans, scanFind before start_time files = none := by
  induction scans with
  | nil => simp [pollScans]
  | cons files rest ih =>
    rw [pollScans]
    cases hf : scanFind before start_time files with
    | some q =>
      simp only [List.mem_cons]
      constructor
      · intro h; exact absurd h (by simp)
      · intro h
        have := h files (.inl rfl)
        rw [hf] at this
        exact absurd this (by simp)
    | none =>
      rw [ih]
      constructor
      · intro h fs hmem
        rcases List.mem_cons.mp hmem with heq | hmem'
        · rw [heq, hf]
        · exact h fs hmem'
      · intro h fs hmem
        exact h fs (List.mem_cons_of_mem _ hmem)

theorem findSome?_mem {α β : Type} {f : α → Option β} :
    ∀ {l : List α} {b : β}, l.findSome? f = some b → ∃ a ∈ l, f a = some b := by
  intro l
  induction l with
  | nil => intro b h; exact absurd h (by simp)
  | cons x xs ih =>
    intro b h
    rw [List.findSome?_cons] at h
    cases hx : f x with
    | some y =>
      rw [hx] at h
      exact ⟨x, List.mem_cons_self _ _, by rw [hx]; exact h⟩
    | none =>
      rw [hx] at h
      obtain ⟨a, ha, hfa⟩ := ih h
      exact ⟨a, List.mem_cons_of_mem _ ha, hfa⟩

theorem scanFind_some {before : List (String × Int)} {start_time : Int}
    {files : List FileEntry} {p : String}
    (h : scanFind before start_time files = some p) :
    ∃ f ∈ files, f.is_file = true
      ∧ ((before.lookup f.name).isNone ∨ start_time < f.mtime)
      ∧ p = f.name := by
  rw [scanFind] at h
  obtain ⟨f, hmem, hf⟩ := findSome?_mem h
  refine ⟨f, hmem, ?_⟩
  split_ifs at hf with h1 h2
  all_goals first
    | exact Option.noConfusion hf
    | (have hname : p = f.name := by injection hf with hf2; exact hf2.symm
       have hisf : f.is_file = true := by simpa using h1
       exact ⟨hisf, h2, hname⟩)

/-- C8: emulator-native screenshot capture snapshots the directory before
sending `SCREENSHOT` (the trace is exactly that one datagram), and: if it
returns a path, that path names a regular file observed during some poll
that either was absent from the snapshot or whose modification time has
advanced past the capture-start instant; it fails with `ScreenshotTimeout`
(`TimeoutError`) exactly when no poll before the deadline observes such a
file. -/
theorem claim_C8_capture_screenshot (cenv : CaptureEnv) :
    (capture_screenshot cenv).2 = [Action.sendCmd "SCREENSHOT"] ∧
    (∀ p, (capture_screenshot cenv).1 = .ok p →
      ∃ files ∈ cenv.scans, ∃ f ∈ files, f.is_file = true
        ∧ (((snapshotDir cenv.initial).lookup f.name).isNone ∨ cenv.start_time < f.mtime)
        ∧ p = f.name) ∧
    ((capture_screenshot cenv).1
        = .error "Timed out waiting for RetroArch screenshot output."
      ↔ ∀ files ∈ cenv.scans,
          scanFind (snapshotDir cenv.initial) cenv.start_time files = none) := by
  refine ⟨rfl, ?_, pollScans_timeout⟩
  intro p h
  obtain ⟨files, hmem, hfs⟩ := pollScans_ok h
  obtain ⟨f, hf⟩ := scanFind_some hfs
  exact ⟨files, hmem, f, hf⟩

/-- C8 witness: with one pre-existing file and a new file appearing at the
second poll, capture returns the new file's path; with no new or modified
file, capture times out. -/
theorem claim_C8_witness :
    (∃ files ∈ ([[⟨"old.png", 50, true⟩], [⟨"old.png", 50, true⟩, ⟨"new.png", 150, true⟩]] :
        List (List FileEntry)), ∃ f ∈ files, f.is_file = true
      ∧ (((snapshotDir [⟨"old.png", 50, true⟩]).lookup f.name).isNone ∨ (100 : Int) < f.mtime)
      ∧ "new.png" = f.name) ∧
    (capture_screenshot ⟨100, [⟨"old.png", 50, true⟩],
        [[⟨"old.png", 50, true⟩], [⟨"old.png", 50, true⟩]]⟩).1
      = .error "Timed out waiting for RetroArch screenshot output." :=
  ⟨(claim_C8_capture_screenshot ⟨100, [⟨"old.png", 50, true⟩],
      [[⟨"old.png", 50, true⟩], [⟨"old.png", 50, true⟩, ⟨"new.png", 150, true⟩]]⟩).2.1
      "new.png" rfl,
   (claim_C8_capture_screenshot ⟨100, [⟨"old.png", 50, true⟩],
      [[⟨"old.png", 50, true⟩], [⟨"old.png", 50, true⟩]]⟩).2.2.mpr (by decide)⟩

theorem dispatchStep_fields (step : Step) (defn : TestDefinition)
    (ap : List String) (w : World) :
    (dispatchStep step defn ap w).status ≠ .skipped ∧
    ((dispatchStep step defn ap w).status = .passed →
      (dispatchStep step defn ap w).error = none) ∧
    ((dispatchStep step defn ap w).status = .failed →
      (dispatchStep step defn ap w).error ≠ none) := by
  cases step <;>
    simp only [dispatchStep, stateStep, exceptOut, passedOut] <;>
    (repeat' split) <;>
    simp_all

theorem runStep_fields (i : Nat) (step : Step) (defn : TestDefinition)
    (ap : List String) (w : World) :
    (runStep i step defn ap w).1.index = i ∧
    (runStep i step defn ap w).1.type = step.type ∧
    (runStep i step defn ap w).1.status ≠ .skipped ∧
    ((runStep i step defn ap w).1.status = .passed →
      (runStep i step defn ap w).1.error = none) ∧
    ((runStep i step defn ap w).1.status = .failed →
      (runStep i step defn ap w).1.error ≠ none) := by
  have h := dispatchStep_fields step defn ap w
  exact ⟨rfl, rfl, h.1, h.2.1, h.2.2⟩

theorem runLoop_passed_iff (defn : TestDefinition) (ap : List String) :
    ∀ (steps : List Step) (i : Nat) (w : World),
      ((runLoop defn ap i steps w).2.1 = true ↔
        ∀ r ∈ (runLoop defn ap i steps w).1, r.status ≠ .failed) := by
  intro steps
  induction steps with
  | nil => intro i w; simp [runLoop]
  | cons s rest ih =>
    intro i w
    simp only [runLoop]
    by_cases hst : (runStep i s defn ap w).1.status = .failed
    · by_cases hc : defn.continue_on_failure
      · simp only [hst, if_pos rfl, hc, if_true]
        constructor
        · intro hfalse; exact absurd hfalse (by simp)
        · intro hall
          exact absurd hst (hall _ (List.mem_cons_self _ _))
      · simp only [hst, if_pos rfl, hc, if_false, Bool.false_eq_true]
        constructor
        · intro hfalse; exact absurd hfalse (by simp)
        · intro hall
          exact absurd hst (hall _ (List.mem_cons_self _ _))
    · simp only [if_neg hst]
      rw [ih (i + 1) (runStep i s defn ap w).2]
      constructor
      · intro hall r hr
        rcases List.mem_cons.mp hr with heq | hmem
        · rw [heq]; exact hst
        · exact hall r hmem
      · intro hall r hr
        exact hall r (List.mem_cons_of_mem _ hr)

theorem runLoop_cont_true (defn : TestDefinition) (ap : List String)
    (hc : defn.continue_on_failure = true) :
    ∀ (steps : List Step) (i : Nat) (w : World),
      (runLoop defn ap i steps w).1.map (fun r => r.type) = steps.map Step.type ∧
      (runLoop defn ap i steps w).1.map (fun r => r.index) = List.range' i steps.length := by
  intro steps
  induction steps with
  | nil => intro i w; simp [runLoop]
  | cons s rest ih =>
    intro i w
    have hf := runStep_fields i s defn ap w
    simp only [runLoop]
    by_cases hst : (runStep i s defn ap w).1.status = .failed
    · simp only [hst, if_pos rfl, hc, if_true, List.map_cons, List.length_cons,
        List.range'_succ]
      exact ⟨by rw [hf.2.1, (ih (i + 1) _).1],
             by rw [hf.1, (ih (i + 1) _).2]⟩
    · simp only [if_neg hst, List.map_cons, List.length_cons, List.range'_succ]
      exact ⟨by rw [hf.2.1, (ih (i + 1) _).1],
             by rw [hf.1, (ih (i + 1) _).2]⟩

theorem runLoop_cont_false (defn : TestDefinition) (ap : List String)
    (hc : defn.continue_on_failure = false) :
    ∀ (steps : List Step) (i : Nat) (w : World),
      (runLoop defn ap i steps w).1.map (fun r => r.type)
        = (steps.take (runLoop defn ap i steps w).1.length).map Step.type ∧
      (runLoop defn ap i steps w).1.map (fun r => r.index)
        = List.range' i (runLoop defn ap i steps w).1.length ∧
      (∀ r ∈ (runLoop defn ap i steps w).1.dropLast, r.status ≠ .failed) ∧
      ((runLoop defn ap i steps w).1.length < steps.length →
        ∃ r, (runLoop defn ap i steps w).1.getLast? = some r ∧ r.status = .failed) := by
  intro steps
  induction steps with
  | nil => intro i w; simp [runLoop]
  | cons s rest ih =>
    intro i w
    have hf := runStep_fields i s defn ap w
    simp only [runLoop]
    by_cases hst : (runStep i s defn ap w).1.status = .failed
    · simp only [hst, if_pos rfl, hc, if_false]
      refine ⟨?_, ?_, ?_, ?_⟩
      · simp [hf.2.1]
      · simp [hf.1]
      · simp
      · intro _
        exact ⟨(runStep i s defn ap w).1, by simp, hst⟩
    · simp only [if_neg hst]
      obtain ⟨iht, ihi, ihd, ihl⟩ := ih (i + 1) (runStep i s defn ap w).2
      refine ⟨?_, ?_, ?_, ?_⟩
      · simp only [List.map_cons, List.length_cons, List.take_succ_cons, hf.2.1, iht]
      · simp only [List.map_cons, List.length_cons, List.range'_succ, hf.1, ihi]
      · cases hrs : (runLoop defn ap (i + 1) rest (runStep i s defn ap w).2).1 with
        | nil => simp
        | cons r0 rs0 =>
          rw [List.dropLast_cons₂]
          intro r hr
          rcases List.mem_cons.mp hr with heq | hmem
          · rw [heq]; exact hst
          · have := ihd r
            rw [hrs] at this
            exact this hmem
      · intro hlen
        simp only [List.length_cons] at hlen
        have hlen' : (runLoop defn ap (i + 1) rest (runStep i s defn ap w).2).1.length
            < rest.length := by omega
        obtain ⟨r, hr, hrst⟩ := ihl hlen'
        cases hrs : (runLoop defn ap (i + 1) rest (runStep i s defn ap w).2).1 with
        | nil =>
          rw [hrs] at hr
          exact absurd hr (by simp)
        | cons r0 rs0 =>
          refine ⟨r, ?_, hrst⟩
          rw [hrs] at hr
          rw [List.getLast?_cons_cons]
          exact hr

theorem runLoop_no_skipped (defn : TestDefinition) (ap : List String) :
    ∀ (steps : List Step) (i : Nat) (w : World),
      ∀ r ∈ (runLoop defn ap i steps w).1, r.status ≠ .skipped := by
  intro steps
  induction steps with
  | nil => intro i w r hr; simp [runLoop] at hr
  | cons s rest ih =>
    intro i w r hr
    have hf := runStep_fields i s defn ap w
    simp only [runLoop] at hr
    by_cases hst : (runStep i s defn ap w).1.status = .failed
    · by_cases hc : defn.continue_on_failure
      · simp only [hst, if_pos rfl, hc, if_true] at hr
        rcases List.mem_cons.mp hr with heq | hmem
        · rw [heq]; exact hf.2.2.1
        · exact ih (i + 1) _ r hmem
      · simp only [hst, if_pos rfl, hc, if_false, Bool.false_eq_true] at hr
        rcases List.mem_cons.mp hr with heq | hmem
        · rw [heq]; exact hf.2.2.1
        · exact absurd hmem (List.not_mem_nil r)
    · simp only [if_neg hst] at hr
      rcases List.mem_cons.mp hr with heq | hmem
      · rw [heq]; exact hf.2.2.1
      · exact ih (i + 1) _ r hmem

theorem runResult_eq {defn : TestDefinition} {append_path : String} {w : World}
    {res : TestRunResult} (h : runResult defn append_path w = some res) :
    res.steps
        = (runLoop defn (defn.append_config_paths ++ [append_path]) 0 defn.steps w).1 ∧
    res.passed
        = (runLoop defn (defn.append_config_paths ++ [append_path]) 0 defn.steps w).2.1 ∧
    res.name = defn.name := by
  simp only [runResult, run] at h
  rcases hw : wShutdown
      (runLoop defn (defn.append_config_paths ++ [append_path]) 0 defn.steps w).2.2
    with ⟨e2, w2⟩
  rw [hw] at h
  cases e2 with
  | error e => exact absurd h (by simp)
  | ok u =>
    simp only [Option.some.injEq] at h
    rw [← h]
    exact ⟨rfl, rfl, rfl⟩

/-! ## Claims C1, C2, C9, C10 -/

/-- C1: the run result's step list is shaped by `continue_on_failure`: with
it false, the step results are an exact prefix of the definition's steps
ending at the first failed step (no subsequent step appears, no `skipped`
entries); with it true, every defined step produces exactly one result, in
definition order. -/
theorem claim_C1_step_list_shape (defn : TestDefinition) (append_path : String)
    (w : World) (res : TestRunResult) (h : runResult defn append_path w = some res) :
    (defn.continue_on_failure = false →
      res.steps.map (fun r => r.type)
          = (defn.steps.take res.steps.length).map Step.type ∧
      res.steps.map (fun r => r.index) = List.range res.steps.length ∧
      (∀ r ∈ res.steps.dropLast, r.status ≠ .failed) ∧
      (res.steps.length < defn.steps.length →
        ∃ r, res.steps.getLast? = some r ∧ r.status = .failed) ∧
      (∀ r ∈ res.steps, r.status ≠ .skipped)) ∧
    (defn.continue_on_failure = true →
      res.steps.map (fun r => r.type) = defn.steps.map Step.type ∧
      res.steps.map (fun r => r.index) = List.range defn.steps.length ∧
      (∀ r ∈ res.steps, r.status ≠ .skipped)) := by
  obtain ⟨hsteps, _, _⟩ := runResult_eq h
  constructor
  · intro hc
    obtain ⟨h1, h2, h3, h4⟩ :=
      runLoop_cont_false defn (defn.append_config_paths ++ [append_path]) hc
        defn.steps 0 w
    rw [hsteps]
    exact ⟨h1, by rw [h2, List.range_eq_range'], h3, h4,
      fun r hr => runLoop_no_skipped defn _ defn.steps 0 w r hr⟩
  · intro hc
    obtain ⟨h1, h2⟩ :=
      runLoop_cont_true defn (defn.append_config_paths ++ [append_path]) hc
        defn.steps 0 w
    rw [hsteps]
    exact ⟨h1, by rw [h2, List.range_eq_range'],
      fun r hr => runLoop_no_skipped defn _ defn.steps 0 w r hr⟩

/-- C2: the run result's aggregate `passed` is true iff no executed step
result has status `failed`; a zero-step definition yields `passed = true`
and an empty step list. -/
theorem claim_C2_passed_aggregate (defn : TestDefinition) (append_path : String)
    (w : World) (res : TestRunResult) (h : runResult defn append_path w = some res) :
    (res.passed = true ↔ ∀ r ∈ res.steps, r.status ≠ .failed) ∧
    (defn.steps = [] → res.passed = true ∧ res.steps = []) := by
  obtain ⟨hsteps, hp, _⟩ := runResult_eq h
  constructor
  · rw [hp, hsteps]
    exact runLoop_passed_iff defn _ defn.steps 0 w
  · intro hnil
    rw [hp, hsteps, hnil]
    exact ⟨rfl, rfl⟩

/-- C9: a `screenshot_assert` step executed with no visual validator
configured still performs capture first (the per-mode capture counter
advances and the validator is never invoked), and — when capture succeeds
with path `p` — the step result is `failed` with the literal error text
"OPENROUTER_API_KEY not configured" while `p` is still recorded as the
result's screenshot path. -/
theorem claim_C9_validator_unconfigured (i : Nat) (prompt : String)
    (model : Option String) (timeout : Rat) (mode : CaptureMode)
    (defn : TestDefinition) (ap : List String) (w : World) (p : String)
    (hval : w.validator = none)
    (hcap : (if mode = CaptureMode.system then wSysCapture w else wCapture w).1
      = .ok p) :
    (runStep i (.screenshot_assert prompt model timeout mode) defn ap w).1.status
        = .failed ∧
    (runStep i (.screenshot_assert prompt model timeout mode) defn ap w).1.error
        = some "OPENROUTER_API_KEY not configured" ∧
    (runStep i (.screenshot_assert prompt model timeout mode) defn ap w).1.screenshot_path
        = some p ∧
    (if mode = CaptureMode.system then
      (runStep i (.screenshot_assert prompt model timeout mode) defn ap w).2.sysCaptureCount
        = w.sysCaptureCount + 1
     else
      (runStep i (.screenshot_assert prompt model timeout mode) defn ap w).2.captureCount
        = w.captureCount + 1) ∧
    (runStep i (.screenshot_assert prompt model timeout mode) defn ap w).2.validatorCount
        = w.validatorCount := by
  cases mode with
  | system =>
    have hcap' : w.sysCaptures w.sysCaptureCount = .ok p := hcap
    simp [runStep, dispatchStep, wSysCapture, hcap', hval]
  | retroarch =>
    have hcap' : (capture_screenshot (w.captureEnvs w.captureCount)).1 = .ok p := hcap
    simp [runStep, dispatchStep, wCapture, hcap', hval]

/-- C10: every step result produced by `_run_step` carries the executor's
index and the step's type tag, is never `skipped`, has no error text when
passed, and always has error text when failed — for every step kind and
every dispatch outcome. -/
theorem claim_C10_result_invariants (i : Nat) (step : Step)
    (defn : TestDefinition) (ap : List String) (w : World) :
    (runStep i step defn ap w).1.index = i ∧
    (runStep i step defn ap w).1.type = step.type ∧
    (runStep i step defn ap w).1.status ≠ .skipped ∧
    ((runStep i step defn ap w).1.status = .passed →
      (runStep i step defn ap w).1.error = none) ∧
    ((runStep i step defn ap w).1.status = .failed →
      (runStep i step defn ap w).1.error ≠ none) :=
  runStep_fields i step defn ap w

/-- C1 witness: the stop-on-failure run records exactly the prefix through
the first failure, and the continue run records one result per step. -/
theorem claim_C1_witness :
    (resStop.steps.map (fun r => r.type)
        = (defnStop.steps.take resStop.steps.length).map Step.type ∧
      resStop.steps.map (fun r => r.index) = List.range resStop.steps.length ∧
      (∀ r ∈ resStop.steps.dropLast, r.status ≠ .failed) ∧
      (resStop.steps.length < defnStop.steps.length →
        ∃ r, resStop.steps.getLast? = some r ∧ r.status = .failed) ∧
      (∀ r ∈ resStop.steps, r.status ≠ .skipped)) ∧
    (resCont.steps.map (fun r => r.type) = defnCont.steps.map Step.type ∧
      resCont.steps.map (fun r => r.index) = List.range defnCont.steps.length ∧
      (∀ r ∈ resCont.steps, r.status ≠ .skipped)) :=
  ⟨(claim_C1_step_list_shape defnStop "gen.cfg" wBase resStop rfl).1 rfl,
   (claim_C1_step_list_shape defnCont "gen.cfg" wBase resCont rfl).2 rfl⟩

/-- C2 witness: the stop-on-failure run's aggregate matches its step
statuses, and the zero-step run passes with an empty step list. -/
theorem claim_C2_witness :
    (resStop.passed = true ↔ ∀ r ∈ resStop.steps, r.status ≠ .failed) ∧
    (resEmpty.passed = true ∧ resEmpty.steps = []) :=
  ⟨(claim_C2_passed_aggregate defnStop "gen.cfg" wBase resStop rfl).1,
   (claim_C2_passed_aggregate defnEmpty "gen.cfg" wBase resEmpty rfl).2 rfl⟩

/-- C9 witness: a concrete emulator-native screenshot-assert step in a
world with no validator. -/
theorem claim_C9_witness :
    (runStep 0 (.screenshot_assert "menu visible" none 10 .retroarch)
      defnStop [] wBase).1.status = .failed ∧
    (runStep 0 (.screenshot_assert "menu visible" none 10 .retroarch)
      defnStop [] wBase).1.error = some "OPENROUTER_API_KEY not configured" ∧
    (runStep 0 (.screenshot_assert "menu visible" none 10 .retroarch)
      defnStop [] wBase).1.screenshot_path = some "new.png" ∧
    (runStep 0 (.screenshot_assert "menu visible" none 10 .retroarch)
      defnStop [] wBase).2.captureCount = 1 ∧
    (runStep 0 (.screenshot_assert "menu visible" none 10 .retroarch)
      defnStop [] wBase).2.validatorCount = 0 :=
  have h := claim_C9_validator_unconfigured 0 "menu visible" none 10
    CaptureMode.retroarch defnStop [] wBase "new.png" rfl rfl
  ⟨h.1, h.2.1, h.2.2.1, h.2.2.2.1, h.2.2.2.2⟩

/-- C10 witness: a concrete command step's result carries its index and no
error text since it passed. -/
theorem claim_C10_witness :
    (runStep 0 (Step.command "RESET") defnStop [] wBase).1.index = 0 ∧
    (runStep 0 (Step.command "RESET") defnStop [] wBase).1.error = none :=
  ⟨(claim_C10_result_invariants 0 (Step.command "RESET") defnStop [] wBase).1,
   (claim_C10_result_invariants 0 (Step.command "RESET") defnStop [] wBase).2.2.2.1 rfl⟩

end RetroArchMCP
